import Mathlib

/-!
Shallow embedding of `src/main.py` (Guardian ↔ Sankhya integration).

The program is a linear pipeline: load credentials from the environment,
log in to the Sankhya HTTP API to obtain a bearer token, connect to SQL
Server, fetch partner records from a fixed view, insert them into
`tbTransportadora` inside one transaction, issue one mark-imported HTTP
call per committed partner code, and log out.  All external effects
(HTTP requests, database statements, `print` output) are modelled as
events appended to a trace; the behaviour of the outside world (HTTP
responses, whether a given database insert raises `pyodbc.Error`,
whether the environment defines a variable) is an explicit `Env`
parameter.  `sys.exit(1)` is modelled as an exit flag that propagates
to the top-level wrapper, which converts it into a transcript line,
mirroring the `except SystemExit` handler in `run_integration_process`.

Modelling conventions:
* Python strings are `String`, `os.getenv` is `String → Option String`.
* A JSON scalar reaching the record fields is `PyVal` (null, string or
  integer), with Python truthiness (`None`, `""` and `0` are falsy).
* The only fallible database operation modelled is `cursor.execute` of
  a row insert (`insertErr : Nat → Bool` says whether the i-th insert
  raises `pyodbc.Error`); this is the granularity the code handles.
* Dynamic text interpolated from exception objects is elided from the
  modelled `print` messages; the static message prefixes are kept.
-/

/-- A Python scalar value as it arrives from the JSON payload: `None`,
a string, or an integer. -/
inductive PyVal where
  | none : PyVal
  | str : String → PyVal
  | int : Int → PyVal
deriving DecidableEq, Repr

/-- Python truthiness of a `PyVal`: `None`, the empty string and `0`
are falsy, everything else is truthy (`if codparc_api:`). -/
def PyVal.truthy : PyVal → Bool
  | .none => false
  | .str s => s ≠ ""
  | .int n => n ≠ 0

/-- Python `str()` applied to a `PyVal` (used by
`update_sankhya_partner_status` via `str(codparc)`). -/
def PyVal.toStr : PyVal → String
  | .none => "None"
  | .str s => s
  | .int n => toString n

/-- A fetched partner record: a mapping from field name to wrapped
scalar, `{name: {"$": value}}`.  An association list; a missing field
name and a field wrapping `null` both read back as `PyVal.none`,
matching `record.get(name, {}).get("$", None)`. -/
abbrev PRecord : Type := List (String × PyVal)

/-- `record.get(name, {}).get("$", None)` from the Python source. -/
def PRecord.getField (r : PRecord) (name : String) : PyVal :=
  match r.lookup name with
  | Option.none => PyVal.none
  | Option.some v => v

/-- One observable effect of the pipeline, in program order. -/
inductive Event where
  | print : String → Event
  | loginCall : Event
  | dbConnectCall : Event
  | fetchCall : Event
  | cursorOpen : Event
  | insertExec : Nat → Event
  | commit : Event
  | rollback : Event
  | markImported : String → Event
  | logoutCall : String → Event
  | cursorClose : Event
  | connClose : Event
deriving DecidableEq, Repr

/-- The partner codes carried by the mark-imported calls of a trace,
in order. -/
def markCalls (evs : List Event) : List String :=
  evs.filterMap fun e =>
    match e with
    | .markImported s => Option.some s
    | _ => Option.none

/-- Events that are network or database I/O (everything except
`print`).  Used to state that a run attempts no I/O at all. -/
def isNetworkOrDb : Event → Bool
  | .print _ => false
  | _ => true

/-- Events of the stages downstream of login: database connection,
fetch, persist, mark-imported and logout. -/
def isDownstream : Event → Bool
  | .print _ => false
  | .loginCall => false
  | _ => true

/-- Events of the persist stage proper: cursor handling, row inserts,
commit and rollback. -/
def isPersist : Event → Bool
  | .cursorOpen => true
  | .insertExec _ => true
  | .commit => true
  | .rollback => true
  | .cursorClose => true
  | _ => false

/-! ## Credential loader (`load_credentials`, lines 16-38) -/

def api_required_vars : List String :=
  ["TOKEN", "APPKEY", "USERNAME_API", "PASSWORD_API"]

def db_required_vars : List String :=
  ["DB_SERVER", "DB_DATABASE", "DB_USERNAME", "DB_PASSWORD"]

/-- Python `str.lower()`: lowercase each character.  (The library
`String.toLower` is extensionally the same map but is not structurally
reducible, which would block concrete evaluation.) -/
def strLower (s : String) : String := String.mk (s.data.map Char.toLower)

/-- Python `str.strip()`: drop leading and trailing whitespace. -/
def pyStrip (s : String) : String :=
  String.mk (((s.data.dropWhile Char.isWhitespace).reverse.dropWhile Char.isWhitespace).reverse)

/-- `os.getenv(var)` followed by the Python truthiness test
`if not value`: returns the raw value only when it is present and not
the empty string (a whitespace-only value passes this test). -/
def getenvTruthy (getenv : String → Option String) (v : String) : Option String :=
  match getenv v with
  | Option.none => Option.none
  | Option.some raw => if raw = "" then Option.none else Option.some raw

/-- The fatal message printed for a missing/empty variable `v` of group
`tag` ("API" or "DB"); it names the missing key. -/
def missingVarMsg (v tag : String) : String :=
  "Erro Crítico: A variável de ambiente " ++ v ++ " (" ++ tag ++
    ") não foi encontrada ou está vazia no arquivo .env."

/-- Credentials: the dict built by `load_credentials`, keys lowercased,
values stripped. -/
abbrev Creds : Type := List (String × String)

def Creds.find (c : Creds) (k : String) : Option String := c.lookup k

/-- One `for var in vars:` loop of `load_credentials`: check each
variable in order; on the first missing/empty one print the fatal
message and exit (`Option.none` result), otherwise collect
`var.lower() ↦ value.strip()`. -/
def loadVars (getenv : String → Option String) (tag : String) :
    List String → List Event × Option Creds
  | [] => ([], Option.some [])
  | v :: vs =>
    match getenvTruthy getenv v with
    | Option.none => ([Event.print (missingVarMsg v tag)], Option.none)
    | Option.some raw =>
      match loadVars getenv tag vs with
      | (evs, Option.none) => (evs, Option.none)
      | (evs, Option.some rest) => (evs, Option.some ((strLower v, pyStrip raw) :: rest))

/-- `load_credentials()` (lines 16-38): validate the four API variables
then the four DB variables; `sys.exit(1)` on the first failure is the
`Option.none` result. -/
def load_credentials (getenv : String → Option String) :
    List Event × Option Creds :=
  match loadVars getenv "API" api_required_vars with
  | (evsA, Option.none) => (evsA, Option.none)
  | (evsA, Option.some a) =>
    match loadVars getenv "DB" db_required_vars with
    | (evsB, Option.none) => (evsA ++ evsB, Option.none)
    | (evsB, Option.some b) => (evsA ++ evsB, Option.some (a ++ b))

/-! ## Session manager (`perform_login` lines 40-72, `perform_logout` lines 251-277) -/

/-- Outcome of the login HTTP request, as the environment decides it:
a 2xx response whose JSON body may or may not contain a string
`bearerToken` field, a non-2xx response (`raise_for_status` raises
`HTTPError`), or a lower-level connection error (`RequestException`). -/
inductive LoginOutcome where
  | ok : Option String → LoginOutcome
  | httpErr : Nat → LoginOutcome
  | connErr : LoginOutcome
deriving DecidableEq, Repr

/-- `perform_login(credentials)` (lines 40-72): issue the login
request; on 2xx extract `bearerToken` from the body (possibly absent)
and print the success message; on `HTTPError` print the error and
status code; on `RequestException` print the connection error.  The
function never raises: the failure branches fall through to
`return None`. -/
def perform_login (outcome : LoginOutcome) : List Event × Option String :=
  ([Event.print "Tentando realizar o login na API Sankhya...", Event.loginCall] ++
    (match outcome with
     | .ok _ => [Event.print "\n✅ Login na API Sankhya realizado com sucesso!"]
     | .httpErr code =>
       [Event.print "\n❌ Ocorreu um erro HTTP ao logar na API.",
        Event.print ("Status Code: " ++ toString code)]
     | .connErr => [Event.print "\n❌ Ocorreu um erro de conexão ao logar na API."]),
   match outcome with
   | .ok tok => tok
   | .httpErr _ => Option.none
   | .connErr => Option.none)

/-- Python truthiness of the value returned by `perform_login`
(`if bearer_token:`): `None` and the empty string are falsy. -/
def pyTruthyStr : Option String → Bool
  | Option.none => false
  | Option.some s => s ≠ ""

/-- Outcome of the logout HTTP request: a 2xx response whose body has
`status == "1"`, a 2xx response with an unexpected status, or a
request error. -/
inductive LogoutOutcome where
  | ok : LogoutOutcome
  | badStatus : LogoutOutcome
  | reqErr : LogoutOutcome
deriving DecidableEq, Repr

/-- `perform_logout(token, appkey)` (lines 251-277): issue the logout
request carrying the bearer token; inspect the `status` field; every
failure is only logged. -/
def perform_logout (token : String) (outcome : LogoutOutcome) : List Event :=
  [Event.print "\n--- Encerrando a sessão (logout) da API Sankhya ---",
   Event.logoutCall token] ++
    match outcome with
    | .ok => [Event.print "✅ Sessão da API Sankhya encerrada com sucesso!"]
    | .badStatus =>
      [Event.print "⚠️ Logout da API Sankhya realizado, mas o status da resposta não foi o esperado."]
    | .reqErr => [Event.print "❌ Erro ao tentar encerrar a sessão da API Sankhya."]

/-! ## Mark-imported stage (`update_sankhya_partner_status`, lines 99-144) -/

/-- Outcome of one mark-imported HTTP request: 2xx with body
`status == "1"`, 2xx (or decodable) with another status, or a request
error.  None of them raises out of the function. -/
inductive MarkOutcome where
  | ok : MarkOutcome
  | badStatus : MarkOutcome
  | reqErr : MarkOutcome
deriving DecidableEq, Repr

/-- `update_sankhya_partner_status(codparc, bearer_token)` (lines
99-144): always issues the save request for `str(codparc)`; the
outcome only changes what is printed, every failure is logged and
swallowed. -/
def update_sankhya_partner_status (codparc : PyVal) (outcome : MarkOutcome) :
    List Event :=
  [Event.print ("--- Tentando atualizar AD_IMPORTADOGUARDIAN para S no Sankhya para CODPARC: " ++
      codparc.toStr ++ " ---"),
   Event.markImported codparc.toStr] ++
    match outcome with
    | .ok =>
      [Event.print ("✅ AD_IMPORTADOGUARDIAN atualizado para S no Sankhya para CODPARC: " ++
          codparc.toStr ++ "!")]
    | .badStatus =>
      [Event.print ("⚠️ Falha ao atualizar AD_IMPORTADOGUARDIAN para CODPARC: " ++
          codparc.toStr ++ ".")]
    | .reqErr =>
      [Event.print ("❌ Erro de conexão ou HTTP ao tentar atualizar AD_IMPORTADOGUARDIAN para CODPARC " ++
          codparc.toStr)]

/-! ## Persist stage (`insert_partners_into_sql`, lines 146-205) -/

/-- The `for record in records:` loop of `insert_partners_into_sql`
(lines 164-188), started at row index `i`.  Each iteration attempts
`cursor.execute` of the parameterized insert; `insertErr j = true`
means that execute raises `pyodbc.Error`, which aborts the loop
(result `Option.none`).  Otherwise the row is inserted and, when the
record has a truthy `CODPARC` value, that value is appended to
`codparcs_inserted_successfully`. -/
def insertLoop (insertErr : Nat → Bool) :
    List PRecord → Nat → List Event × Option (List PyVal)
  | [], _ => ([], Option.some [])
  | r :: rs, i =>
    if insertErr i then ([Event.insertExec i], Option.none)
    else
      match insertLoop insertErr rs (i + 1) with
      | (evs, Option.none) => (Event.insertExec i :: evs, Option.none)
      | (evs, Option.some cods) =>
        (Event.insertExec i :: evs,
         Option.some (if (r.getField "CODPARC").truthy
           then r.getField "CODPARC" :: cods else cods))

/-- `insert_partners_into_sql(records, sql_conn, bearer_token)` (lines
146-205): return early on an empty list; otherwise open a cursor, run
the insert loop, and either commit and issue one
`update_sankhya_partner_status` call per collected partner code (in
order), or roll the whole transaction back on the first
`pyodbc.Error`; the cursor is closed on both paths (`finally`). -/
def insert_partners_into_sql (records : List PRecord) (insertErr : Nat → Bool)
    (markOutcome : String → MarkOutcome) : List Event :=
  if records.isEmpty then
    [Event.print "Nenhum registro para inserir no SQL Server."]
  else
    Event.cursorOpen ::
      Event.print "\n--- Inserindo dados na tabela tbTransportadora do SQL Server ---" ::
      match insertLoop insertErr records 0 with
      | (evs, Option.none) =>
        evs ++ [Event.rollback,
          Event.print "❌ Erro ao inserir dados no SQL Server.",
          Event.cursorClose]
      | (evs, Option.some cods) =>
        evs ++ [Event.commit,
          Event.print ("✅ " ++ toString records.length ++
            " registros inseridos com sucesso na tabela tbTransportadora!")] ++
          (if cods.isEmpty then
            [Event.print "Nenhum CODPARC válido para atualizar no Sankhya após a inserção."]
          else
            Event.print "\n--- Atualizando status AD_IMPORTADOGUARDIAN no Sankhya ---" ::
              cods.flatMap (fun c => update_sankhya_partner_status c (markOutcome c.toStr))) ++
          [Event.cursorClose]

/-! ## Fetch stage (`get_guardian_partners`, lines 207-249) -/

/-- Outcome of the view-query HTTP request: a 2xx response carrying
the parsed record list (the nested
`responseBody.records.record` path, `[]` when absent), or a request
error. -/
inductive FetchOutcome where
  | ok : List PRecord → FetchOutcome
  | reqErr : FetchOutcome

/-- `get_guardian_partners(token, sql_conn)` (lines 207-249): issue
the view query; on success, call `insert_partners_into_sql` only when
the record list is non-empty (`if records:`); on a request error only
log. -/
def get_guardian_partners (outcome : FetchOutcome) (insertErr : Nat → Bool)
    (markOutcome : String → MarkOutcome) : List Event :=
  [Event.print "\n--- Buscando parceiros da view VIEW_PARCEIROS_GUARDIAN na API Sankhya ---",
   Event.fetchCall] ++
    match outcome with
    | .ok records =>
      Event.print "✅ Dados da API recebidos com sucesso!" ::
        (if records.isEmpty then
          [Event.print "Nenhum registro de parceiro encontrado na resposta da API."]
        else
          insert_partners_into_sql records insertErr markOutcome)
    | .reqErr => [Event.print "❌ Erro na requisição de dados da API."]

/-! ## Database connection (`connect_to_sql_server`, lines 74-97) -/

/-- `connect_to_sql_server(credentials)` (lines 74-97): attempt the
ODBC connection; on success return the connection (modelled `true`),
on `pyodbc.Error` print the error and `sys.exit(1)` (modelled
`false`, the exit flag being raised by the caller model). -/
def connect_to_sql_server (connectOk : Bool) : List Event × Bool :=
  ([Event.print "\n--- Tentando conectar ao SQL Server ---", Event.dbConnectCall] ++
    (if connectOk then [Event.print "✅ Conexão com o SQL Server estabelecida com sucesso!"]
     else [Event.print "❌ Erro ao conectar ao SQL Server."]),
   connectOk)

/-! ## Top-level pipeline (`run_integration_process`, lines 280-312) -/

/-- The behaviour of the outside world during one run: the environment
variables, the outcome of each HTTP request, whether the ODBC
connection succeeds, and which row inserts raise `pyodbc.Error`. -/
structure Env where
  getenv : String → Option String
  login : LoginOutcome
  connectOk : Bool
  fetch : FetchOutcome
  insertErr : Nat → Bool
  markOutcome : String → MarkOutcome
  logout : LogoutOutcome

/-- The body of `run_integration_process` inside the `try` (lines
286-305): the event trace plus the exit flag (`true` exactly when a
`sys.exit(1)` — from `load_credentials` or `connect_to_sql_server` —
raised `SystemExit` out of the body).  The inner `finally` (lines
298-303) runs `perform_logout` whenever `bearer_token` is truthy, on
the normal path and on the `SystemExit` path alike, and closes the
connection when one was opened. -/
def pipelineBody (env : Env) : List Event × Bool :=
  match load_credentials env.getenv with
  | (ev1, Option.none) => (ev1, true)
  | (ev1, Option.some _) =>
    let loginRes := perform_login env.login
    if pyTruthyStr loginRes.2 then
      let tok := loginRes.2.getD ""
      let ev3 := [Event.print "\n🔑 Bearer Token da API armazenado com sucesso."]
      let connRes := connect_to_sql_server env.connectOk
      if connRes.2 then
        let ev5 := get_guardian_partners env.fetch env.insertErr env.markOutcome
        (ev1 ++ loginRes.1 ++ ev3 ++ connRes.1 ++ ev5 ++
          perform_logout tok env.logout ++
          [Event.connClose, Event.print "Conexão com o SQL Server fechada."],
         false)
      else
        (ev1 ++ loginRes.1 ++ ev3 ++ connRes.1 ++ perform_logout tok env.logout,
         true)
    else
      (ev1 ++ loginRes.1 ++
        [Event.print "\nFalha ao obter o Bearer Token da API. As próximas requisições não serão executadas."],
       false)

/-- `run_integration_process()` (lines 280-312): run the pipeline body
with stdout captured; `except SystemExit` converts a fatal exit into a
final transcript line; the `finally` restores stdout and returns the
captured transcript.  The modelled function is total: it returns the
transcript for every environment. -/
def run_integration_process (env : Env) : List Event :=
  (pipelineBody env).1 ++
    (if (pipelineBody env).2 then
      [Event.print "\nProcesso encerrado devido a um erro crítico."]
    else [])

/-! ## Statement helpers and concrete inputs -/

/-- Whether a record has a truthy `CODPARC` value (`if codparc_api:`,
line 187). -/
def truthyCod (r : PRecord) : Bool := (r.getField "CODPARC").truthy

/-- The `codparcs_inserted_successfully` list a fully successful run of
the insert loop collects: the `CODPARC` values of the records that
have a truthy one, in record order. -/
def codsOf (records : List PRecord) : List PyVal :=
  (records.filter truthyCod).map (fun r => r.getField "CODPARC")

/-- A fetched record carrying no `CODPARC` field at all. -/
def recNoCod : PRecord := [("SKN_CODIGO", PyVal.str "7")]

def rec1001 : PRecord := [("CODPARC", PyVal.str "1001")]

def rec1002 : PRecord := [("CODPARC", PyVal.str "1002")]

/-- An environment source defining every variable as `"x"`. -/
def wGetenv : String → Option String := fun _ => Option.some "x"

/-- The credentials `load_credentials` builds from `wGetenv`. -/
def wCreds : Creds :=
  [("token", "x"), ("appkey", "x"), ("username_api", "x"), ("password_api", "x"),
   ("db_server", "x"), ("db_database", "x"), ("db_username", "x"), ("db_password", "x")]

/-- A fully healthy world: all variables set, login yields token
`"abc123"`, the database connects, the fetch returns two records, no
insert fails, every mark-imported and the logout succeed. -/
def envW : Env where
  getenv := wGetenv
  login := LoginOutcome.ok (Option.some "abc123")
  connectOk := true
  fetch := FetchOutcome.ok [rec1001, rec1002]
  insertErr := fun _ => false
  markOutcome := fun _ => MarkOutcome.ok
  logout := LogoutOutcome.ok

/-- `envW` with the login request answered by HTTP 401. -/
def envHttp401 : Env := { envW with login := LoginOutcome.httpErr 401 }

/-- `envW` with the fetch answering an empty record list. -/
def envNoRecords : Env := { envW with fetch := FetchOutcome.ok [] }

/-- `envW` with the variable `APPKEY` undefined in the environment. -/
def envNoAppkey : Env :=
  { envW with getenv := fun v => if v = "APPKEY" then Option.none else Option.some "x" }

/-- `envW` with a 2xx login response whose body has no bearer token. -/
def envNoToken : Env := { envW with login := LoginOutcome.ok Option.none }

/-- An environment source where `TOKEN` is whitespace-only and every
other variable is `"x"`. -/
def wsGetenv : String → Option String :=
  fun v => if v = "TOKEN" then Option.some " " else Option.some "x"

/-! ## Helper lemmas -/

theorem markCalls_append (a b : List Event) :
    markCalls (a ++ b) = markCalls a ++ markCalls b := by
  simp [markCalls]

theorem markCalls_update (c : PyVal) (o : MarkOutcome) :
    markCalls (update_sankhya_partner_status c o) = [c.toStr] := by
  cases o <;> rfl

theorem update_events (c : PyVal) (o : MarkOutcome) (e : Event)
    (h : e ∈ update_sankhya_partner_status c o) :
    (∃ m, e = Event.print m) ∨ e = Event.markImported c.toStr := by
  cases o <;> simp [update_sankhya_partner_status] at h <;> rcases h with h | h | h <;>
    simp [h]

theorem markCalls_flatMap (mo : String → MarkOutcome) (cods : List PyVal) :
    markCalls (cods.flatMap fun c => update_sankhya_partner_status c (mo c.toStr)) =
      cods.map PyVal.toStr := by
  induction cods with
  | nil => rfl
  | cons c rest ih =>
    simp only [List.flatMap_cons, markCalls_append, markCalls_update, ih, List.map_cons]
    rfl

theorem insertLoop_ok (insertErr : Nat → Bool) :
    ∀ (rs : List PRecord) (i : Nat),
      (∀ j, j < rs.length → insertErr (i + j) = false) →
      insertLoop insertErr rs i =
        ((List.range rs.length).map (fun j => Event.insertExec (i + j)),
         Option.some (codsOf rs)) := by
  intro rs
  induction rs with
  | nil => intro i _; rfl
  | cons r rest ih =>
    intro i h
    have h0 : insertErr i = false := by
      have := h 0 (by simp)
      simpa using this
    have hrest : ∀ j, j < rest.length → insertErr (i + 1 + j) = false := by
      intro j hj
      have := h (j + 1) (by simpa using Nat.succ_lt_succ hj)
      simpa [Nat.add_assoc, Nat.add_comm 1 j] using this
    simp only [insertLoop, h0, ih (i + 1) hrest, Bool.false_eq_true, if_false,
      Prod.mk.injEq]
    constructor
    · simp only [List.length_cons, List.range_succ_eq_map, List.map_cons, List.map_map,
        Nat.add_zero, List.cons.injEq]
      refine ⟨trivial, ?_⟩
      apply List.map_congr_left
      intro j _
      simp [Function.comp, Nat.add_assoc, Nat.add_comm 1 j]
    · simp only [codsOf, truthyCod, List.filter_cons]
      by_cases hc : (r.getField "CODPARC").truthy = true <;> simp [hc]

theorem insertLoop_err (insertErr : Nat → Bool) :
    ∀ (rs : List PRecord) (i : Nat),
      (∃ k, k < rs.length ∧ insertErr (i + k) = true) →
      (insertLoop insertErr rs i).2 = Option.none := by
  intro rs
  induction rs with
  | nil => intro i h; rcases h with ⟨k, hk, _⟩; simp at hk
  | cons r rest ih =>
    intro i h
    by_cases h0 : insertErr i = true
    · simp [insertLoop, h0]
    · rcases h with ⟨k, hk, hke⟩
      rcases k with _ | k
      · simp at hke; exact absurd hke h0
      · have hrec : (insertLoop insertErr rest (i + 1)).2 = Option.none := by
          apply ih
          refine ⟨k, by simpa using Nat.lt_of_succ_lt_succ hk, ?_⟩
          simpa [Nat.add_assoc, Nat.add_comm 1 k] using hke
        simp only [insertLoop, Bool.not_eq_true] at h0 ⊢
        rw [h0]
        simp only [Bool.false_eq_true, if_false]
        rcases hIL : insertLoop insertErr rest (i + 1) with ⟨evs, o⟩
        rw [hIL] at hrec
        simp at hrec
        subst hrec
        rfl

theorem insertLoop_events (insertErr : Nat → Bool) :
    ∀ (rs : List PRecord) (i : Nat) (e : Event),
      e ∈ (insertLoop insertErr rs i).1 → ∃ j, e = Event.insertExec j := by
  intro rs
  induction rs with
  | nil => intro i e h; simp [insertLoop] at h
  | cons r rest ih =>
    intro i e h
    by_cases h0 : insertErr i = true
    · simp [insertLoop, h0] at h
      exact ⟨i, h⟩
    · simp only [Bool.not_eq_true] at h0
      simp only [insertLoop, h0, Bool.false_eq_true, if_false] at h
      rcases hIL : insertLoop insertErr rest (i + 1) with ⟨evs, o⟩
      rw [hIL] at h
      rcases o with _ | cods
      · simp at h
        rcases h with h | h
        · exact ⟨i, h⟩
        · exact ih (i + 1) e (by rw [hIL]; exact h)
      · simp at h
        rcases h with h | h
        · exact ⟨i, h⟩
        · exact ih (i + 1) e (by rw [hIL]; exact h)

theorem loadVars_events (getenv : String → Option String) (tag : String) :
    ∀ (vs : List String) (e : Event),
      e ∈ (loadVars getenv tag vs).1 → ∃ m, e = Event.print m := by
  intro vs
  induction vs with
  | nil => intro e h; simp [loadVars] at h
  | cons v rest ih =>
    intro e h
    rcases hg : getenvTruthy getenv v with _ | raw
    · simp [loadVars, hg] at h
      exact ⟨missingVarMsg v tag, h⟩
    · simp only [loadVars, hg] at h
      rcases hr : loadVars getenv tag rest with ⟨evs, o⟩
      rw [hr] at h
      rcases o with _ | c
      · exact ih e (by rw [hr]; exact h)
      · exact ih e (by rw [hr]; exact h)

theorem load_credentials_events (getenv : String → Option String) (e : Event)
    (h : e ∈ (load_credentials getenv).1) : ∃ m, e = Event.print m := by
  unfold load_credentials at h
  rcases hA : loadVars getenv "API" api_required_vars with ⟨evsA, oA⟩
  rw [hA] at h
  rcases oA with _ | a
  · exact loadVars_events getenv "API" api_required_vars e (by rw [hA]; exact h)
  · rcases hB : loadVars getenv "DB" db_required_vars with ⟨evsB, oB⟩
    rw [hB] at h
    have hmem : e ∈ evsA ∨ e ∈ evsB := by
      rcases oB with _ | b <;> simpa using h
    rcases hmem with hm | hm
    · exact loadVars_events getenv "API" api_required_vars e (by rw [hA]; exact hm)
    · exact loadVars_events getenv "DB" db_required_vars e (by rw [hB]; exact hm)

theorem loadVars_some_eq (getenv : String → Option String) (tag : String) :
    ∀ (vs : List String) (c : Creds),
      (loadVars getenv tag vs).2 = Option.some c →
      c = vs.map (fun v => (strLower v, pyStrip ((getenvTruthy getenv v).getD ""))) ∧
        ∀ v ∈ vs, getenvTruthy getenv v ≠ Option.none := by
  intro vs
  induction vs with
  | nil =>
    intro c h
    simp [loadVars] at h
    simp [h.symm]
  | cons v rest ih =>
    intro c h
    rcases hg : getenvTruthy getenv v with _ | raw
    · rw [loadVars, hg] at h
      simp at h
    · rw [loadVars, hg] at h
      rcases hr : loadVars getenv tag rest with ⟨evs, o⟩
      rw [hr] at h
      rcases o with _ | crest
      · simp at h
      · simp at h
        have hrec := ih crest (by rw [hr])
        constructor
        · simp [h.symm, hrec.1.symm, hg]
        · intro w hw
          rcases List.mem_cons.mp hw with hw | hw
          · rw [hw, hg]; simp
          · exact hrec.2 w hw

theorem loadVars_missing (getenv : String → Option String) (tag : String) :
    ∀ (vs : List String),
      (∃ v ∈ vs, getenvTruthy getenv v = Option.none) →
      ∃ w ∈ vs, getenvTruthy getenv w = Option.none ∧
        loadVars getenv tag vs = ([Event.print (missingVarMsg w tag)], Option.none) := by
  intro vs
  induction vs with
  | nil => intro h; rcases h with ⟨v, hv, _⟩; simp at hv
  | cons v rest ih =>
    intro h
    rcases hg : getenvTruthy getenv v with _ | raw
    · exact ⟨v, by simp, hg, by rw [loadVars, hg]⟩
    · have hrest : ∃ w ∈ rest, getenvTruthy getenv w = Option.none := by
        rcases h with ⟨u, hu, hue⟩
        rcases List.mem_cons.mp hu with hu | hu
        · rw [hu, hg] at hue; simp at hue
        · exact ⟨u, hu, hue⟩
      rcases ih hrest with ⟨w, hw, hwe, heq⟩
      refine ⟨w, List.mem_cons_of_mem v hw, hwe, ?_⟩
      rw [loadVars, hg, heq]

theorem markCalls_nil : markCalls [] = [] := rfl

theorem markCalls_cons_print (m : String) (l : List Event) :
    markCalls (Event.print m :: l) = markCalls l := rfl

theorem markCalls_cons_cursorOpen (l : List Event) :
    markCalls (Event.cursorOpen :: l) = markCalls l := rfl

theorem markCalls_cons_commit (l : List Event) :
    markCalls (Event.commit :: l) = markCalls l := rfl

theorem markCalls_cons_rollback (l : List Event) :
    markCalls (Event.rollback :: l) = markCalls l := rfl

theorem markCalls_cons_cursorClose (l : List Event) :
    markCalls (Event.cursorClose :: l) = markCalls l := rfl

theorem markCalls_cons_insertExec (i : Nat) (l : List Event) :
    markCalls (Event.insertExec i :: l) = markCalls l := rfl

theorem markCalls_cons_mark (s : String) (l : List Event) :
    markCalls (Event.markImported s :: l) = s :: markCalls l := rfl

theorem markCalls_cons_loginCall (l : List Event) :
    markCalls (Event.loginCall :: l) = markCalls l := rfl

theorem markCalls_cons_dbConnectCall (l : List Event) :
    markCalls (Event.dbConnectCall :: l) = markCalls l := rfl

theorem markCalls_cons_fetchCall (l : List Event) :
    markCalls (Event.fetchCall :: l) = markCalls l := rfl

theorem markCalls_cons_logoutCall (t : String) (l : List Event) :
    markCalls (Event.logoutCall t :: l) = markCalls l := rfl

theorem markCalls_cons_connClose (l : List Event) :
    markCalls (Event.connClose :: l) = markCalls l := rfl

theorem markCalls_insertRange (n : Nat) :
    markCalls ((List.range n).map (fun j => Event.insertExec j)) = [] := by
  simp [markCalls, List.filterMap_map]

theorem perform_login_events (o : LoginOutcome) (e : Event)
    (h : e ∈ (perform_login o).1) :
    (∃ m, e = Event.print m) ∨ e = Event.loginCall := by
  cases o with
  | ok b =>
    simp [perform_login] at h
    rcases h with h | h | h <;> simp [h]
  | httpErr c =>
    simp [perform_login] at h
    rcases h with h | h | h | h <;> simp [h]
  | connErr =>
    simp [perform_login] at h
    rcases h with h | h | h <;> simp [h]

theorem markCalls_logout (t : String) (o : LogoutOutcome) :
    markCalls (perform_logout t o) = [] := by
  cases o <;> rfl

theorem filter_persist_logout (t : String) (o : LogoutOutcome) :
    (perform_logout t o).filter isPersist = [] := by
  cases o <;> rfl

theorem logout_mem (t : String) (o : LogoutOutcome) :
    Event.logoutCall t ∈ perform_logout t o := by
  cases o <;> simp [perform_logout]

theorem not_in_update_flatMap (mo : String → MarkOutcome) (cods : List PyVal)
    (e : Event) (hp : ∀ m, e ≠ Event.print m) (hm : ∀ s, e ≠ Event.markImported s) :
    e ∉ cods.flatMap (fun c => update_sankhya_partner_status c (mo c.toStr)) := by
  intro h
  rw [List.mem_flatMap] at h
  rcases h with ⟨c, _, hmem⟩
  rcases update_events c _ _ hmem with ⟨m, h2⟩ | h2
  · exact hp m h2
  · exact hm _ h2

theorem getenvTruthy_some (getenv : String → Option String) (v raw : String)
    (h : getenvTruthy getenv v = Option.some raw) :
    getenv v = Option.some raw ∧ raw ≠ "" := by
  unfold getenvTruthy at h
  rcases hg : getenv v with _ | r
  · rw [hg] at h; simp at h
  · rw [hg] at h
    by_cases hr : r = ""
    · simp [hr] at h
    · simp [hr] at h
      subst h
      exact ⟨rfl, hr⟩

theorem loadVars_all_present (getenv : String → Option String) (tag : String) :
    ∀ vs : List String,
      (∀ v ∈ vs, getenvTruthy getenv v ≠ Option.none) →
      loadVars getenv tag vs =
        ([], Option.some (vs.map (fun v => (strLower v, pyStrip ((getenvTruthy getenv v).getD ""))))) := by
  intro vs
  induction vs with
  | nil => intro _; rfl
  | cons v rest ih =>
    intro h
    rcases hg : getenvTruthy getenv v with _ | raw
    · exact absurd hg (h v (by simp))
    · rw [loadVars, hg, ih (fun u hu => h u (List.mem_cons_of_mem v hu))]
      simp [hg]

theorem load_credentials_missing (getenv : String → Option String) (v : String)
    (hv : v ∈ api_required_vars ++ db_required_vars)
    (hmiss : getenvTruthy getenv v = Option.none) :
    ∃ w tag, getenvTruthy getenv w = Option.none ∧
      (tag = "API" ∧ w ∈ api_required_vars ∨ tag = "DB" ∧ w ∈ db_required_vars) ∧
      load_credentials getenv = ([Event.print (missingVarMsg w tag)], Option.none) := by
  by_cases hapi : ∃ u ∈ api_required_vars, getenvTruthy getenv u = Option.none
  · rcases loadVars_missing getenv "API" api_required_vars hapi with ⟨w, hw, hwe, heq⟩
    refine ⟨w, "API", hwe, Or.inl ⟨rfl, hw⟩, ?_⟩
    rw [load_credentials, heq]
  · have hdb : v ∈ db_required_vars := by
      rcases List.mem_append.mp hv with hm | hm
      · exact absurd ⟨v, hm, hmiss⟩ hapi
      · exact hm
    push_neg at hapi
    have hA := loadVars_all_present getenv "API" api_required_vars hapi
    rcases loadVars_missing getenv "DB" db_required_vars ⟨v, hdb, hmiss⟩ with ⟨w, hw, hwe, heq⟩
    refine ⟨w, "DB", hwe, Or.inr ⟨rfl, hw⟩, ?_⟩
    rw [load_credentials, hA, heq]
    rfl

/-! ## Claim C1 -/

/-- Claim C1, as stated, is false: a record without a truthy `CODPARC`
value inserts and commits, yet no mark-imported call is issued for it.
Concretely, for the one-record list `[recNoCod]` with no insert error,
the batch commits but zero (not one) mark-imported calls are issued. -/
theorem c1_counterexample :
    Event.commit ∈
      insert_partners_into_sql [recNoCod] (fun _ => false) (fun _ => MarkOutcome.ok) ∧
    (markCalls
        (insert_partners_into_sql [recNoCod] (fun _ => false) (fun _ => MarkOutcome.ok))).length ≠
      ([recNoCod] : List PRecord).length := by
  decide

/-- Claim C1 (amended): for every non-empty fetched record list in
which every record inserts successfully (the batch commits), exactly
one mark-imported call is issued per record whose `CODPARC` value is
truthy, carrying that partner code stringified, in record order,
regardless of each mark-imported call's outcome. -/
theorem c1_marks_match_truthy_codparcs (records : List PRecord)
    (insertErr : Nat → Bool) (mo : String → MarkOutcome) (hne : records ≠ [])
    (hok : ∀ j, j < records.length → insertErr j = false) :
    markCalls (insert_partners_into_sql records insertErr mo) =
      (codsOf records).map PyVal.toStr := by
  have hIL := insertLoop_ok insertErr records 0 (by intro j hj; simpa using hok j hj)
  simp only [Nat.zero_add] at hIL
  rw [insert_partners_into_sql, if_neg (by simpa using hne), hIL]
  by_cases hc : (codsOf records).isEmpty
  · have hnil : codsOf records = [] := List.isEmpty_iff.mp hc
    simp [markCalls_cons_cursorOpen, markCalls_cons_print, markCalls_append,
      markCalls_insertRange, markCalls_cons_commit, markCalls_cons_cursorClose,
      markCalls_nil, hc, hnil]
  · simp only [hc, Bool.false_eq_true, if_false, markCalls_cons_cursorOpen,
      markCalls_cons_print, markCalls_append, markCalls_insertRange,
      markCalls_cons_commit, markCalls_cons_cursorClose, markCalls_nil,
      markCalls_flatMap, List.nil_append, List.append_nil]

/-- Claim C1 witness: the amended theorem evaluated on the concrete
three-record list `[rec1001, recNoCod, rec1002]` with no insert
errors: the mark calls are exactly `["1001", "1002"]`. -/
theorem c1_witness :
    ([rec1001, recNoCod, rec1002] : List PRecord) ≠ [] ∧
    markCalls
        (insert_partners_into_sql [rec1001, recNoCod, rec1002] (fun _ => false)
          (fun _ => MarkOutcome.ok)) =
      (codsOf [rec1001, recNoCod, rec1002]).map PyVal.toStr :=
  ⟨by decide,
   c1_marks_match_truthy_codparcs [rec1001, recNoCod, rec1002] (fun _ => false)
     (fun _ => MarkOutcome.ok) (by decide) (fun _ _ => rfl)⟩

/-! ## Claim C2 -/

/-- Claim C2: for every non-empty fetched record list, if the database
insert of any record raises a database error then the whole
transaction is rolled back, nothing is committed and zero
mark-imported calls are issued; otherwise the whole batch is committed
atomically (no rollback). -/
theorem c2_batch_atomicity (records : List PRecord) (insertErr : Nat → Bool)
    (mo : String → MarkOutcome) (hne : records ≠ []) :
    ((∃ k, k < records.length ∧ insertErr k = true) →
      Event.commit ∉ insert_partners_into_sql records insertErr mo ∧
      Event.rollback ∈ insert_partners_into_sql records insertErr mo ∧
      markCalls (insert_partners_into_sql records insertErr mo) = []) ∧
    ((∀ k, k < records.length → insertErr k = false) →
      Event.commit ∈ insert_partners_into_sql records insertErr mo ∧
      Event.rollback ∉ insert_partners_into_sql records insertErr mo) := by
  constructor
  · rintro ⟨k, hk, hke⟩
    have hsnd : (insertLoop insertErr records 0).2 = Option.none :=
      insertLoop_err insertErr records 0 ⟨k, hk, by simpa using hke⟩
    rcases hIL : insertLoop insertErr records 0 with ⟨evs, o⟩
    rw [hIL] at hsnd
    simp only at hsnd
    subst hsnd
    have hevs : ∀ e ∈ evs, ∃ j, e = Event.insertExec j := fun e he =>
      insertLoop_events insertErr records 0 e (by rw [hIL]; exact he)
    have hmc : markCalls evs = [] := by
      rw [markCalls, List.filterMap_eq_nil_iff]
      intro e he
      rcases hevs e he with ⟨j, hj⟩
      simp [hj]
    rw [insert_partners_into_sql, if_neg (by simpa using hne), hIL]
    refine ⟨?_, ?_, ?_⟩
    · intro hmem
      simp only [List.mem_cons, List.mem_append] at hmem
      rcases hmem with h | h | h | h
      · simp at h
      · simp at h
      · rcases hevs _ h with ⟨j, hj⟩; simp at hj
      · simp at h
    · simp
    · simp only [markCalls_cons_cursorOpen, markCalls_cons_print, markCalls_append, hmc,
        markCalls_cons_rollback, markCalls_cons_cursorClose, markCalls_nil,
        List.nil_append, List.append_nil]
  · intro hok
    have hIL := insertLoop_ok insertErr records 0 (by intro j hj; simpa using hok j hj)
    simp only [Nat.zero_add] at hIL
    rw [insert_partners_into_sql, if_neg (by simpa using hne), hIL]
    have hX : Event.rollback ∉
        (codsOf records).flatMap (fun c => update_sankhya_partner_status c (mo c.toStr)) :=
      not_in_update_flatMap mo (codsOf records) Event.rollback
        (by intro m h; simp at h) (by intro s h; simp at h)
    constructor
    · simp
    · intro hmem
      by_cases hc : (codsOf records).isEmpty <;>
        simp [hc, hX, List.mem_map] at hmem

/-- Claim C2 witness: on `[rec1001, rec1002]` with every insert
raising, the batch is not committed, is rolled back, and issues no
mark-imported call. -/
theorem c2_witness :
    Event.commit ∉
      insert_partners_into_sql [rec1001, rec1002] (fun _ => true) (fun _ => MarkOutcome.ok) ∧
    Event.rollback ∈
      insert_partners_into_sql [rec1001, rec1002] (fun _ => true) (fun _ => MarkOutcome.ok) ∧
    markCalls
        (insert_partners_into_sql [rec1001, rec1002] (fun _ => true) (fun _ => MarkOutcome.ok)) =
      [] :=
  (c2_batch_atomicity [rec1001, rec1002] (fun _ => true) (fun _ => MarkOutcome.ok)
      (by decide)).1 ⟨0, by decide, rfl⟩

/-! ## Claim C3 -/

/-- Claim C3: for every run in which login returns a (truthy) bearer
token, a logout call carrying that token appears in the run's trace,
whatever the downstream world does — success, fetch or insert
failures, and the fatal database-connection-failure path alike (the
environment is universally quantified over all of them). -/
theorem c3_logout_guaranteed (env : Env) (creds : Creds) (tok : String)
    (hc : (load_credentials env.getenv).2 = Option.some creds)
    (hl : (perform_login env.login).2 = Option.some tok) (ht : tok ≠ "") :
    Event.logoutCall tok ∈ run_integration_process env := by
  rcases hE : load_credentials env.getenv with ⟨ev1, copt⟩
  rw [hE] at hc
  simp only at hc
  subst hc
  by_cases hdb : env.connectOk
  · simp [run_integration_process, pipelineBody, hE, hl, ht, hdb, pyTruthyStr,
      connect_to_sql_server, perform_logout]
  · simp [run_integration_process, pipelineBody, hE, hl, ht, hdb, pyTruthyStr,
      connect_to_sql_server, perform_logout]

/-- Claim C3 witness: in the healthy world `envW` the trace contains
the logout call for token `"abc123"`. -/
theorem c3_witness :
    (load_credentials envW.getenv).2 = Option.some wCreds ∧
    (perform_login envW.login).2 = Option.some "abc123" ∧
    Event.logoutCall "abc123" ∈ run_integration_process envW :=
  ⟨by decide, rfl, c3_logout_guaranteed envW wCreds "abc123" (by decide) rfl (by decide)⟩

/-! ## Claim C4 -/

/-- Claim C4: for every run whose login attempt fails at the HTTP
level (`HTTPError` after a 4xx/5xx response) or with a connection
error, `perform_login` returns no token, and the trace contains no
downstream event at all: no database connection, no fetch, no insert,
no commit or rollback, no mark-imported call and no logout call. -/
theorem c4_failed_login_skips_downstream (env : Env) (creds : Creds) (s : Nat)
    (hc : (load_credentials env.getenv).2 = Option.some creds)
    (hl : env.login = LoginOutcome.httpErr s ∨ env.login = LoginOutcome.connErr) :
    (perform_login env.login).2 = Option.none ∧
    (run_integration_process env).filter isDownstream = [] := by
  rcases hE : load_credentials env.getenv with ⟨ev1, copt⟩
  rw [hE] at hc
  simp only at hc
  subst hc
  have hev1 : ev1.filter isDownstream = [] := by
    rw [List.filter_eq_nil_iff]
    intro e he
    rcases load_credentials_events env.getenv e (by rw [hE]; exact he) with ⟨m, hm⟩
    simp [hm, isDownstream]
  rcases hl with hl | hl <;>
    simp [run_integration_process, pipelineBody, hE, hl, perform_login,
      pyTruthyStr, List.filter_append, hev1, isDownstream]

/-- Claim C4 witness: with login answering HTTP 401 in an otherwise
healthy world, no token is returned and the trace has no downstream
event. -/
theorem c4_witness :
    (load_credentials envHttp401.getenv).2 = Option.some wCreds ∧
    (perform_login envHttp401.login).2 = Option.none ∧
    (run_integration_process envHttp401).filter isDownstream = [] :=
  ⟨by decide,
   (c4_failed_login_skips_downstream envHttp401 wCreds 401 (by decide) (Or.inl rfl)).1,
   (c4_failed_login_skips_downstream envHttp401 wCreds 401 (by decide) (Or.inl rfl)).2⟩

/-! ## Claim C5 -/

/-- Claim C5, as stated, is false: the emptiness check runs on the raw
value before stripping, so a whitespace-only value is accepted and the
loader returns a mapping whose `token` value is empty after trimming
(instead of aborting). -/
theorem c5_counterexample :
    (load_credentials wsGetenv).2.map (fun c => Creds.find c "token") =
      Option.some (Option.some "") := by
  decide

/-- Claim C5 (amended): whenever the loader returns, the returned
mapping is exactly the eight required keys (lowercased) each bound to
the whitespace-trimmed form of an environment value that was non-empty
before trimming; a missing or empty (before trimming) value is fatal,
but a whitespace-only value is accepted and trims to the empty
string. -/
theorem c5_values_trimmed_from_nonempty_source (getenv : String → Option String)
    (creds : Creds) (h : (load_credentials getenv).2 = Option.some creds) :
    creds = (api_required_vars ++ db_required_vars).map
      (fun v => (strLower v, pyStrip ((getenvTruthy getenv v).getD ""))) ∧
    ∀ v ∈ api_required_vars ++ db_required_vars,
      ∃ raw, getenv v = Option.some raw ∧ raw ≠ "" ∧
        (strLower v, pyStrip raw) ∈ creds := by
  unfold load_credentials at h
  rcases hA : loadVars getenv "API" api_required_vars with ⟨evsA, oA⟩
  rw [hA] at h
  rcases oA with _ | a
  · simp at h
  · rcases hB : loadVars getenv "DB" db_required_vars with ⟨evsB, oB⟩
    rw [hB] at h
    rcases oB with _ | b
    · simp at h
    · have hab : a ++ b = creds := by simpa using h
      have hA2 := loadVars_some_eq getenv "API" api_required_vars a (by rw [hA])
      have hB2 := loadVars_some_eq getenv "DB" db_required_vars b (by rw [hB])
      have hcreds : creds = (api_required_vars ++ db_required_vars).map
          (fun v => (strLower v, pyStrip ((getenvTruthy getenv v).getD ""))) := by
        rw [← hab, hA2.1, hB2.1, List.map_append]
      refine ⟨hcreds, ?_⟩
      intro v hv
      have hvt : getenvTruthy getenv v ≠ Option.none := by
        rcases List.mem_append.mp hv with hm | hm
        · exact hA2.2 v hm
        · exact hB2.2 v hm
      rcases hg : getenvTruthy getenv v with _ | raw
      · exact absurd hg hvt
      · rcases getenvTruthy_some getenv v raw hg with ⟨hge, hraw⟩
        refine ⟨raw, hge, hraw, ?_⟩
        rw [hcreds]
        exact List.mem_map.mpr ⟨v, hv, by simp [hg]⟩

/-- Claim C5 witness: the amended theorem evaluated at the all-`"x"`
environment source, whose loader result is `wCreds`. -/
theorem c5_witness :
    (load_credentials wGetenv).2 = Option.some wCreds ∧
    wCreds = (api_required_vars ++ db_required_vars).map
      (fun v => (strLower v, pyStrip ((getenvTruthy wGetenv v).getD ""))) :=
  ⟨by decide, (c5_values_trimmed_from_nonempty_source wGetenv wCreds (by decide)).1⟩

/-! ## Claim C6 -/

/-- Claim C6: for every run whose environment is missing (or defines
as empty) any one of the eight required variables, the loader refuses
to proceed (`sys.exit(1)`), the run's trace contains a fatal message
naming a missing key, and no network or database call of any kind is
attempted. -/
theorem c6_missing_key_aborts (env : Env) (v : String)
    (hv : v ∈ api_required_vars ++ db_required_vars)
    (hmiss : getenvTruthy env.getenv v = Option.none) :
    (load_credentials env.getenv).2 = Option.none ∧
    (run_integration_process env).filter isNetworkOrDb = [] ∧
    ∃ w tag, getenvTruthy env.getenv w = Option.none ∧
      Event.print (missingVarMsg w tag) ∈ run_integration_process env := by
  rcases load_credentials_missing env.getenv v hv hmiss with ⟨w, tag, hwe, _, heq⟩
  refine ⟨by rw [heq], ?_, w, tag, hwe, ?_⟩ <;>
    simp [run_integration_process, pipelineBody, heq, isNetworkOrDb]

/-- Claim C6 witness: with `APPKEY` undefined, the loader aborts and
the run performs no network or database call. -/
theorem c6_witness :
    ("APPKEY" ∈ api_required_vars ++ db_required_vars) ∧
    (load_credentials envNoAppkey.getenv).2 = Option.none ∧
    (run_integration_process envNoAppkey).filter isNetworkOrDb = [] :=
  ⟨by decide,
   (c6_missing_key_aborts envNoAppkey "APPKEY" (by decide) (by decide)).1,
   (c6_missing_key_aborts envNoAppkey "APPKEY" (by decide) (by decide)).2.1⟩

/-! ## Claim C7 -/

/-- Claim C7: for every run in which login succeeds, the database
connects and the fetch returns zero records, the persist stage is
skipped entirely (no cursor opened, no insert executed, no commit and
no rollback), zero mark-imported calls are issued, and the logout call
is still attempted. -/
theorem c7_zero_records_skip_persist (env : Env) (creds : Creds) (tok : String)
    (hc : (load_credentials env.getenv).2 = Option.some creds)
    (hl : (perform_login env.login).2 = Option.some tok) (ht : tok ≠ "")
    (hdb : env.connectOk = true) (hf : env.fetch = FetchOutcome.ok []) :
    (run_integration_process env).filter isPersist = [] ∧
    markCalls (run_integration_process env) = [] ∧
    Event.logoutCall tok ∈ run_integration_process env := by
  rcases hE : load_credentials env.getenv with ⟨ev1, copt⟩
  rw [hE] at hc
  simp only at hc
  subst hc
  have hev1p : ∀ e ∈ ev1, ∃ m, e = Event.print m := fun e he =>
    load_credentials_events env.getenv e (by rw [hE]; exact he)
  have hev1f : ev1.filter isPersist = [] := by
    rw [List.filter_eq_nil_iff]
    intro e he
    rcases hev1p e he with ⟨m, hm⟩
    simp [hm, isPersist]
  have hev1m : markCalls ev1 = [] := by
    rw [markCalls, List.filterMap_eq_nil_iff]
    intro e he
    rcases hev1p e he with ⟨m, hm⟩
    simp [hm]
  have hlp : ∀ e ∈ (perform_login env.login).1,
      (∃ m, e = Event.print m) ∨ e = Event.loginCall := fun e he =>
    perform_login_events env.login e he
  have hlf : (perform_login env.login).1.filter isPersist = [] := by
    rw [List.filter_eq_nil_iff]
    intro e he
    rcases hlp e he with ⟨m, hm⟩ | hm <;> simp [hm, isPersist]
  have hlm : markCalls (perform_login env.login).1 = [] := by
    rw [markCalls, List.filterMap_eq_nil_iff]
    intro e he
    rcases hlp e he with ⟨m, hm⟩ | hm <;> simp [hm]
  refine ⟨?_, ?_, ?_⟩ <;>
    simp [run_integration_process, pipelineBody, hE, hl, ht, hdb, hf, pyTruthyStr,
      connect_to_sql_server, get_guardian_partners, List.filter_append, hev1f, hlf,
      filter_persist_logout, isPersist, markCalls_append, markCalls_cons_print,
      markCalls_cons_dbConnectCall, markCalls_cons_fetchCall, markCalls_cons_connClose,
      hev1m, hlm, markCalls_logout, markCalls_nil, logout_mem]

/-- Claim C7 witness: the healthy world with an empty fetch result:
no persist event, no mark-imported call, and the logout call occurs. -/
theorem c7_witness :
    (run_integration_process envNoRecords).filter isPersist = [] ∧
    markCalls (run_integration_process envNoRecords) = [] ∧
    Event.logoutCall "abc123" ∈ run_integration_process envNoRecords :=
  c7_zero_records_skip_persist envNoRecords wCreds "abc123" (by decide) rfl
    (by decide) rfl rfl

/-! ## Claim C8 -/

/-- Claim C8: for every run whose login response is 2xx but whose JSON
body lacks the `bearerToken` field, `perform_login` still prints the
success message yet returns no token, and every downstream stage —
database connection, fetch, persist, mark-imported and logout — is
skipped exactly as on a failed login (no downstream event in the
trace). -/
theorem c8_tokenless_success_skips_downstream (env : Env) (creds : Creds)
    (hc : (load_credentials env.getenv).2 = Option.some creds)
    (hl : env.login = LoginOutcome.ok Option.none) :
    (perform_login env.login).2 = Option.none ∧
    Event.print "\n✅ Login na API Sankhya realizado com sucesso!" ∈
      run_integration_process env ∧
    (run_integration_process env).filter isDownstream = [] := by
  rcases hE : load_credentials env.getenv with ⟨ev1, copt⟩
  rw [hE] at hc
  simp only at hc
  subst hc
  have hev1f : ev1.filter isDownstream = [] := by
    rw [List.filter_eq_nil_iff]
    intro e he
    rcases load_credentials_events env.getenv e (by rw [hE]; exact he) with ⟨m, hm⟩
    simp [hm, isDownstream]
  refine ⟨?_, ?_, ?_⟩ <;>
    simp [run_integration_process, pipelineBody, hE, hl, perform_login, pyTruthyStr,
      List.filter_append, hev1f, isDownstream]

/-- Claim C8 witness: a 2xx login reply without a bearer token in an
otherwise healthy world: the success message is printed and the trace
has no downstream event. -/
theorem c8_witness :
    (perform_login envNoToken.login).2 = Option.none ∧
    Event.print "\n✅ Login na API Sankhya realizado com sucesso!" ∈
      run_integration_process envNoToken ∧
    (run_integration_process envNoToken).filter isDownstream = [] :=
  c8_tokenless_success_skips_downstream envNoToken wCreds (by decide) rfl

/-! ## Claim C9 -/

/-- Claim C9: in a batch where every insert succeeds, a record whose
`CODPARC` field is absent or falsy is still inserted (its row insert
executes and the batch commits), but it is excluded from the
mark-imported loop: the issued mark calls are exactly those for the
truthy partner codes, hence strictly fewer than the number of
records. -/
theorem c9_falsy_codparc_inserted_unmarked (records : List PRecord)
    (insertErr : Nat → Bool) (mo : String → MarkOutcome) (i : Nat)
    (hi : i < records.length)
    (hok : ∀ j, j < records.length → insertErr j = false)
    (hfalsy : truthyCod (records.get ⟨i, hi⟩) = false) :
    Event.insertExec i ∈ insert_partners_into_sql records insertErr mo ∧
    Event.commit ∈ insert_partners_into_sql records insertErr mo ∧
    markCalls (insert_partners_into_sql records insertErr mo) =
      (codsOf records).map PyVal.toStr ∧
    (markCalls (insert_partners_into_sql records insertErr mo)).length <
      records.length := by
  have hne : records ≠ [] := by
    intro h
    rw [h] at hi
    simp at hi
  have hIL := insertLoop_ok insertErr records 0 (by intro j hj; simpa using hok j hj)
  simp only [Nat.zero_add] at hIL
  have hmc : markCalls (insert_partners_into_sql records insertErr mo) =
      (codsOf records).map PyVal.toStr := by
    rw [insert_partners_into_sql, if_neg (by simpa using hne), hIL]
    by_cases hcod : (codsOf records).isEmpty
    · have hnil : codsOf records = [] := List.isEmpty_iff.mp hcod
      simp [markCalls_cons_cursorOpen, markCalls_cons_print, markCalls_append,
        markCalls_insertRange, markCalls_cons_commit, markCalls_cons_cursorClose,
        markCalls_nil, hcod, hnil]
    · simp only [hcod, Bool.false_eq_true, if_false, markCalls_cons_cursorOpen,
        markCalls_cons_print, markCalls_append, markCalls_insertRange,
        markCalls_cons_commit, markCalls_cons_cursorClose, markCalls_nil,
        markCalls_flatMap, List.nil_append, List.append_nil]
  refine ⟨?_, ?_, hmc, ?_⟩
  · rw [insert_partners_into_sql, if_neg (by simpa using hne), hIL]
    have hmm : Event.insertExec i ∈
        (List.range records.length).map (fun j => Event.insertExec j) :=
      List.mem_map.mpr ⟨i, List.mem_range.mpr hi, rfl⟩
    simp [List.mem_cons, List.mem_append, hmm]
  · rw [insert_partners_into_sql, if_neg (by simpa using hne), hIL]
    simp
  · rw [hmc, List.length_map]
    calc ((records.filter truthyCod).map (fun r => r.getField "CODPARC")).length
        = (records.filter truthyCod).length := List.length_map _ _
      _ < records.length := by
          apply List.length_filter_lt_length_iff_exists.mpr
          refine ⟨records.get ⟨i, hi⟩, List.get_mem records i hi, ?_⟩
          simpa using hfalsy

/-- Claim C9 witness: in the two-record batch `[rec1001, recNoCod]`
with no insert errors, record 1 (no `CODPARC`) is inserted and the
batch commits, yet only `"1001"` is marked. -/
theorem c9_witness :
    Event.insertExec 1 ∈
      insert_partners_into_sql [rec1001, recNoCod] (fun _ => false) (fun _ => MarkOutcome.ok) ∧
    Event.commit ∈
      insert_partners_into_sql [rec1001, recNoCod] (fun _ => false) (fun _ => MarkOutcome.ok) ∧
    markCalls
        (insert_partners_into_sql [rec1001, recNoCod] (fun _ => false) (fun _ => MarkOutcome.ok)) =
      (codsOf [rec1001, recNoCod]).map PyVal.toStr ∧
    (markCalls
        (insert_partners_into_sql [rec1001, recNoCod] (fun _ => false)
          (fun _ => MarkOutcome.ok))).length <
      ([rec1001, recNoCod] : List PRecord).length :=
  c9_falsy_codparc_inserted_unmarked [rec1001, recNoCod] (fun _ => false)
    (fun _ => MarkOutcome.ok) 1 (by decide) (fun _ _ => rfl) (by decide)

/-! ## Claim C10 -/

/-- Claim C10: the web-triggered run never propagates a process-exit
signal.  The `SystemExit` flag of the pipeline body is raised exactly
on the fatal-configuration path and on the fatal
database-connection-failure path; in those cases
`run_integration_process` still returns the whole captured transcript
with a final critical-error line appended, and in every other case it
returns the transcript unchanged — it is a total function of the
environment, so no exit escapes to the web server. -/
theorem c10_systemexit_contained (env : Env) :
    ((pipelineBody env).2 = true ↔
      ((load_credentials env.getenv).2 = Option.none ∨
        ((load_credentials env.getenv).2 ≠ Option.none ∧
          pyTruthyStr (perform_login env.login).2 = true ∧ env.connectOk = false))) ∧
    ((pipelineBody env).2 = true →
      run_integration_process env =
        (pipelineBody env).1 ++ [Event.print "\nProcesso encerrado devido a um erro crítico."]) ∧
    ((pipelineBody env).2 = false →
      run_integration_process env = (pipelineBody env).1) := by
  rcases hE : load_credentials env.getenv with ⟨ev1, copt⟩
  rcases copt with _ | creds
  · simp [run_integration_process, pipelineBody, hE]
  · by_cases htok : pyTruthyStr (perform_login env.login).2 = true
    · by_cases hdb : env.connectOk
      · simp [run_integration_process, pipelineBody, hE, htok, hdb, connect_to_sql_server]
      · simp [run_integration_process, pipelineBody, hE, htok, hdb, connect_to_sql_server]
    · simp [run_integration_process, pipelineBody, hE, htok]
